import Mathlib

/-
Shallow embedding of the ScriptJangler scene-production pipeline.

Source of truth:
  src/types.ts               -- data model (SceneStatus, ScriptScene, AgentLog)
  src/services/geminiService.ts -- parseScriptWithGemini, checkContinuity, generateVeoVideo
  src/App.tsx                -- runDirector orchestration loop

External effects (Gemini text/image calls, the Veo job service, fetch, the
JS builtin JSON.parse, timers) are modelled as explicit oracle inputs:
every external response the real code awaits is a field of an environment
record, and exceptions thrown by awaited calls are `Except.error` values.
Log records keep the source fields `role`, `message`, `status`; the
nondeterministic `id` (crypto.randomUUID) and `timestamp` fields are
omitted, with the emission order preserved by list position.
The unbounded `while (!operation.done)` poll loop is given explicit fuel;
exhausting the fuel (value `none`) models a run that is still waiting.
-/

namespace ScriptJangler

/-- src/types.ts `AgentRole`. -/
inductive AgentRole
  | DIRECTOR
  | CONTINUITY_QA
  | STAGE_HAND
  | GENERATOR
  | PARSER
  deriving DecidableEq

/-- src/types.ts `SceneStatus`. -/
inductive SceneStatus
  | IDLE
  | ANALYZING
  | PREPARING_ASSETS
  | GENERATING
  | COMPLETED
  | ERROR
  deriving DecidableEq

/-- src/types.ts `AgentLog.status` union type. -/
inductive LogStatus
  | info
  | success
  | warning
  | error
  | thinking
  deriving DecidableEq

/-- The opaque continuation handle: `operation.response?.generatedVideos?.[0]?.video`.
    Only its `uri` field is ever read by the code. -/
structure VideoRef where
  uri : Option String
  deriving DecidableEq

/-- src/types.ts `ScriptScene`. `videoHandle : any` is modelled by the opaque `VideoRef`. -/
structure ScriptScene where
  id : Nat
  title : String
  visualPrompt : String
  narrativeContext : String
  imageUrl : Option String
  imageBase64 : Option String
  status : SceneStatus
  videoUri : Option String
  videoHandle : Option VideoRef
  feedback : Option String
  isExtension : Option Bool
  deriving DecidableEq

/-- src/types.ts `AgentLog`, without the nondeterministic `id`/`timestamp` fields. -/
structure AgentLog where
  role : AgentRole
  message : String
  status : LogStatus
  deriving DecidableEq

/-- The structured continuity verdict `{ shouldExtend, reasoning }` of checkContinuity. -/
structure ContinuityResult where
  shouldExtend : Bool
  reasoning : String
  deriving DecidableEq

/-- One item of the JSON array returned by the parser model call
    (fields of the responseSchema in parseScriptWithGemini). -/
structure ParsedItem where
  title : String
  visualPrompt : String
  narrativeContext : String
  imageUrl : Option String
  deriving DecidableEq

/-- The state of a Veo long-running operation as read by generateVeoVideo:
    `done`, `error` (with its `message`, `some ""` meaning an error object whose
    message is empty/undefined), and `response?.generatedVideos?.[0]?.video`. -/
structure Operation where
  done : Bool
  error : Option String
  video : Option VideoRef
  deriving DecidableEq

/-- The shape of the request submitted by `ai.models.generateVideos` in
    generateVeoVideo: the extension branch and the fresh branch. -/
structure VeoRequestInfo where
  model : String
  prompt : String
  video : Option VideoRef
  image : Option String
  resolution : String
  aspectRatio : String
  numberOfVideos : Nat
  deriving DecidableEq

/-- Oracle for the Veo job service: the operation returned by the submission,
    and the operation returned by the k-th `getVideosOperation` status query. -/
structure VeoEnv where
  op0 : Operation
  polls : Nat → Operation

/-- What one call of generateVeoVideo produces: the submitted request shape,
    the progress logs it emitted, and `some (waits, r)` once the poll loop ends
    (`waits` counts the fixed-interval sleeps), or `none` if the job never
    reported done within the fuel. -/
structure VeoOutcome where
  request : VeoRequestInfo
  logs : List AgentLog
  result : Option (Nat × Except String (String × VideoRef))

/-- The two pieces of React state the orchestrator mutates: `scenes` and `logs`. -/
structure RunState where
  scenes : List ScriptScene
  logs : List AgentLog
  deriving DecidableEq

/-- One iteration of the production loop: the state after the scene was handled,
    the thrown error or the updated `previousScene` record, and the Veo request
    submitted for the scene (`none` if the continuity call threw first). -/
structure SceneStep where
  state : RunState
  outcome : Except String ScriptScene
  request : Option VeoRequestInfo

/-- Per-scene external world: the continuity model call's `response.text`
    (`none` models an absent text), the result of the asset step's external
    call (fetchImageAsBase64 or generateStageHandImage), and the Veo job. -/
structure SceneEnv where
  continuityText : Option String
  asset : Except String String
  veo : VeoEnv

/-- External world of a whole run. `parseResult` is the outcome of the parser
    model call combined with JSON.parse of its text; `jsonParse` models the JS
    builtin JSON.parse applied to a continuity response text (Except.error =
    the SyntaxError JSON.parse throws on invalid input); `stop` is the value of
    `stopSignalRef.current` as read at the check before scene index k. -/
structure RunEnv where
  parseResult : Except String (List ParsedItem)
  jsonParse : String → Except String ContinuityResult
  sceneEnvs : Nat → SceneEnv
  stop : Nat → Bool

/-- One scene record as built by parseScriptWithGemini:
    `{ id: index + 1, ...item, status: 'IDLE' }`. -/
def sceneOfItem (index : Nat) (it : ParsedItem) : ScriptScene :=
  { id := index + 1, title := it.title, visualPrompt := it.visualPrompt,
    narrativeContext := it.narrativeContext, imageUrl := it.imageUrl,
    imageBase64 := none, status := SceneStatus.IDLE, videoUri := none,
    videoHandle := none, feedback := none, isExtension := none }

/-- `parsed.map((item, index) => ...)` with its running index. -/
def scenesFromItemsAux : Nat → List ParsedItem → List ScriptScene
  | _, [] => []
  | index, it :: rest => sceneOfItem index it :: scenesFromItemsAux (index + 1) rest

/-- src/services/geminiService.ts parseScriptWithGemini, after the external call:
    maps the parsed items to scenes with ids assigned from the running index. -/
def parseScriptWithGemini (items : List ParsedItem) : List ScriptScene :=
  scenesFromItemsAux 0 items

/-- src/services/geminiService.ts checkContinuity. Returns the evaluator's
    result together with a flag recording whether the external model call was
    made. The source computes `JSON.parse(response.text || defaultLiteral)`:
    a missing or empty `response.text` falls back to the literal
    `'\x7b"shouldExtend": false, "reasoning": "Parse error"\x7d'`, which
    JSON.parse deterministically turns into that record; any other text is
    handed to JSON.parse (the `jp` oracle), whose SyntaxError propagates. -/
def checkContinuity (currentScene : ScriptScene) (previousScene : Option ScriptScene)
    (responseText : Option String) (jp : String → Except String ContinuityResult) :
    Except String ContinuityResult × Bool :=
  match previousScene with
  | none =>
    (Except.ok { shouldExtend := false, reasoning := "First scene, nothing to extend." }, false)
  | some _ =>
    match responseText with
    | none => (Except.ok { shouldExtend := false, reasoning := "Parse error" }, true)
    | some s =>
      if s = "" then (Except.ok { shouldExtend := false, reasoning := "Parse error" }, true)
      else (jp s, true)

/-- `previousScene?.videoHandle` in App.tsx runDirector. -/
def prevHandle (prev : Option ScriptScene) : Option VideoRef :=
  prev.bind fun p => p.videoHandle

/-- App.tsx updateSceneData: `prev.map(s => s.id === id ? { ...s, ...data } : s)`,
    with the spread `data` given as an update function. -/
def updateSceneData (scenes : List ScriptScene) (id : Nat) (g : ScriptScene → ScriptScene) :
    List ScriptScene :=
  scenes.map fun s => if s.id = id then g s else s

/-- App.tsx updateSceneStatus: the same map, updating only the status field. -/
def updateSceneStatus (scenes : List ScriptScene) (id : Nat) (st : SceneStatus) :
    List ScriptScene :=
  updateSceneData scenes id fun s => { s with status := st }

/-- App.tsx addLog: appends one log record. -/
def addLog (st : RunState) (role : AgentRole) (message : String) (sev : LogStatus) : RunState :=
  { st with logs := st.logs ++ [{ role := role, message := message, status := sev }] }

/-- The fixed poll interval of generateVeoVideo: `setTimeout(resolve, 5000)`. -/
def pollIntervalMs : Nat := 5000

/-- The poll loop `while (!operation.done) ...` of generateVeoVideo, with fuel.
    `waits` counts the sleeps performed so far; the k-th status query returns
    `polls k`. `none` means the job was still not done when the fuel ran out. -/
def pollLoop (polls : Nat → Operation) : Nat → Operation → Nat → Option (Operation × Nat)
  | 0, op, waits => if op.done then some (op, waits) else none
  | fuel + 1, op, waits =>
    if op.done then some (op, waits)
    else pollLoop polls fuel (polls waits) (waits + 1)

/-- `operation.response?.generatedVideos?.[0]?.video?.uri`. -/
def opVideoUri (op : Operation) : Option String :=
  op.video.bind fun v => v.uri

/-- The post-loop logic of generateVeoVideo: throw on `operation.error`
    (defaulting an empty message to "Unknown Veo Error"), throw when no video
    URI is present, otherwise return the locator and the fresh handle. -/
def finishOp (op : Operation) : Except String (String × VideoRef) :=
  match op.error with
  | some m => Except.error (if m = "" then "Unknown Veo Error" else m)
  | none =>
    match op.video with
    | some v =>
      match v.uri with
      | some u => Except.ok (u, v)
      | none => Except.error ("No video URI returned from Veo")
    | none => Except.error ("No video URI returned from Veo")

/-- `const model = shouldExtend ? 'veo-3.1-generate-preview' : 'veo-3.1-fast-generate-preview'`. -/
def veoModelName (shouldExtend : Bool) : String :=
  if shouldExtend then "veo-3.1-generate-preview" else "veo-3.1-fast-generate-preview"

/-- The request submitted by generateVeoVideo: the guard
    `if (shouldExtend && previousSceneVideoHandle)` selects the extension
    request (720p, handle attached, no image) or the fresh request (1080p,
    no handle, optional seed image). -/
def veoRequest (scene : ScriptScene) (previousSceneVideoHandle : Option VideoRef)
    (shouldExtend : Bool) (imageBase64 : Option String) : VeoRequestInfo :=
  if shouldExtend && previousSceneVideoHandle.isSome then
    { model := "veo-3.1-generate-preview", prompt := scene.visualPrompt,
      video := previousSceneVideoHandle, image := none,
      resolution := "720p", aspectRatio := "16:9", numberOfVideos := 1 }
  else
    { model := "veo-3.1-fast-generate-preview", prompt := scene.visualPrompt,
      video := none, image := imageBase64,
      resolution := "1080p", aspectRatio := "16:9", numberOfVideos := 1 }

/-- src/services/geminiService.ts generateVeoVideo. -/
def generateVeoVideo (scene : ScriptScene) (previousSceneVideoHandle : Option VideoRef)
    (shouldExtend : Bool) (imageBase64 : Option String) (env : VeoEnv) (fuel : Nat) :
    VeoOutcome :=
  let isExt := shouldExtend && previousSceneVideoHandle.isSome
  let initLog : AgentLog :=
    { role := AgentRole.GENERATOR,
      message := "Initializing Veo task for Scene " ++ toString scene.id ++
        "... Model: " ++ veoModelName shouldExtend,
      status := LogStatus.thinking }
  let modeLogs : List AgentLog :=
    if isExt then
      [initLog,
       { role := AgentRole.GENERATOR, message := "Extending previous clip for continuity...",
         status := LogStatus.thinking }]
    else
      match imageBase64 with
      | some _ =>
        [initLog,
         { role := AgentRole.GENERATOR,
           message := "Applying Stage Hand reference image to generation...",
           status := LogStatus.info }]
      | none => [initLog]
  let allLogs := modeLogs ++
    [{ role := AgentRole.GENERATOR,
       message := "Task submitted to Google Cloud. Polling for completion... (This may take 1-2 minutes)",
       status := LogStatus.thinking }]
  match pollLoop env.polls fuel env.op0 0 with
  | none =>
    { request := veoRequest scene previousSceneVideoHandle shouldExtend imageBase64,
      logs := allLogs, result := none }
  | some (opf, waits) =>
    { request := veoRequest scene previousSceneVideoHandle shouldExtend imageBase64,
      logs := allLogs, result := some (waits, finishOp opf) }

/-- The CONTINUITY_QA log of the production loop. -/
def qaLog (sk : ScriptScene) (cc : ContinuityResult) : AgentLog :=
  { role := AgentRole.CONTINUITY_QA,
    message := "Scene " ++ toString sk.id ++ " Analysis: " ++ cc.reasoning ++
      " -> Extension: " ++ (if cc.shouldExtend then "true" else "false"),
    status := if cc.shouldExtend then LogStatus.warning else LogStatus.info }

/-- The warning logged when the Stage Hand try/catch swallows a failure. -/
def assetFailLog (emsg : String) : AgentLog :=
  { role := AgentRole.STAGE_HAND,
    message := "Asset preparation failed: " ++ emsg ++ ". Proceeding with text-only generation.",
    status := LogStatus.warning }

/-- The Stage Hand block of runDirector (`if (!continuityCheck.shouldExtend)` body):
    status PREPARING_ASSETS, the director and strategy logs, then either a fetched
    or generated image saved into the scene, or — on failure — only the warning,
    with the run continuing without a seed image. `hasUrl` is the truthiness of
    `currentScene.imageUrl` selecting fetch over synthesis. -/
def assetStage (sk : ScriptScene) (asset : Except String String) (st : RunState) :
    RunState × Option String :=
  let hasUrl : Bool := match sk.imageUrl with | some u => u != "" | none => false
  let st1 : RunState :=
    { scenes := updateSceneStatus st.scenes sk.id SceneStatus.PREPARING_ASSETS,
      logs := st.logs ++
        [{ role := AgentRole.DIRECTOR,
           message := "Scene " ++ toString sk.id ++ ": Requesting Stage Hand for visual assets.",
           status := LogStatus.info }] }
  let strategyLog : AgentLog :=
    { role := AgentRole.STAGE_HAND,
      message :=
        if hasUrl then "Fetching reference image from URL: " ++ (sk.imageUrl).getD ("")
        else "No reference image provided. Generating start frame with Nano Banana...",
      status := LogStatus.info }
  let st2 : RunState := { st1 with logs := st1.logs ++ [strategyLog] }
  match asset with
  | Except.ok img =>
    ({ scenes := updateSceneData st2.scenes sk.id fun s => { s with imageBase64 := some img },
       logs := st2.logs ++
         [{ role := AgentRole.STAGE_HAND,
            message := if hasUrl then "Image retrieved successfully."
                       else "Start frame generated successfully.",
            status := LogStatus.success }] },
     some img)
  | Except.error emsg =>
    ({ st2 with logs := st2.logs ++ [assetFailLog emsg] }, none)

/-- The image payload the Stage Hand block hands to generation: the fetched or
    synthesized image on success, nothing on the tolerated failure. -/
def assetImage (a : Except String String) : Option String :=
  match a with
  | Except.ok img => some img
  | Except.error _ => none

/-- Status ANALYZING plus the director's continuity-request log
    (loop lines 130-133 of runDirector). -/
def analyzeState (sk : ScriptScene) (st : RunState) : RunState :=
  { scenes := updateSceneStatus st.scenes sk.id SceneStatus.ANALYZING,
    logs := st.logs ++
      [{ role := AgentRole.DIRECTOR,
         message := "Scene " ++ toString sk.id ++ ": Requesting Continuity QA check.",
         status := LogStatus.info }] }

/-- The QA log plus the feedback/isExtension scene update (lines 136-145). -/
def qaApply (sk : ScriptScene) (cc : ContinuityResult) (st : RunState) : RunState :=
  { scenes := updateSceneData st.scenes sk.id fun s =>
      { s with feedback := some cc.reasoning, isExtension := some cc.shouldExtend },
    logs := st.logs ++ [qaLog sk cc] }

/-- Status GENERATING plus the greenlight log (lines 176-177). -/
def greenlitState (sk : ScriptScene) (st : RunState) : RunState :=
  { scenes := updateSceneStatus st.scenes sk.id SceneStatus.GENERATING,
    logs := st.logs ++
      [{ role := AgentRole.DIRECTOR,
         message := "Scene " ++ toString sk.id ++ ": Greenlit for Veo generation.",
         status := LogStatus.info }] }

/-- `updatedSceneData` of runDirector: the completed-scene record update
    (lines 197-201). -/
def completedUpd (u : String) (v : VideoRef) (s : ScriptScene) : ScriptScene :=
  { s with videoUri := some u, videoHandle := some v, status := SceneStatus.COMPLETED }

/-- Applying the completed-scene update plus the generator's success log
    (lines 203-204). -/
def completedApply (sk : ScriptScene) (u : String) (v : VideoRef) (st : RunState) : RunState :=
  { scenes := updateSceneData st.scenes sk.id (completedUpd u v),
    logs := st.logs ++
      [{ role := AgentRole.GENERATOR,
         message := "Scene " ++ toString sk.id ++ " wrapped. Video ready.",
         status := LogStatus.success }] }

/-- The tail of one loop iteration, after the continuity verdict `cc` came back
    and the QA update was applied (state `stB`): the conditional Stage Hand
    block, status GENERATING, the Veo call with
    `canExtend = continuityCheck.shouldExtend && previousScene?.videoHandle`,
    and on success the completed-scene update and the new `previousScene`
    record `{ ...currentScene, ...updatedSceneData }`. -/
def produceScene (sk : ScriptScene) (prev : Option ScriptScene) (cc : ContinuityResult)
    (env : SceneEnv) (fuel : Nat) (stB : RunState) : Option SceneStep :=
  let pr : RunState × Option String :=
    if cc.shouldExtend then (stB, none) else assetStage sk env.asset stB
  let stC := greenlitState sk pr.1
  let veo := generateVeoVideo sk (prevHandle prev)
    (cc.shouldExtend && (prevHandle prev).isSome) pr.2 env.veo fuel
  let stD : RunState := { stC with logs := stC.logs ++ veo.logs }
  match veo.result with
  | none => none
  | some (_, Except.error m) =>
    some { state := stD, outcome := Except.error m, request := some veo.request }
  | some (_, Except.ok (u, v)) =>
    some { state := completedApply sk u v stD, outcome := Except.ok (completedUpd u v sk),
           request := some veo.request }

/-- One iteration of runDirector's production loop for `currentScene = sk`
    (App.tsx lines 127-207), after the stop check: status ANALYZING, the
    continuity check (whose thrown error aborts the iteration), then
    `produceScene` for the rest of the pipeline. -/
def processScene (sk : ScriptScene) (prev : Option ScriptScene) (env : SceneEnv)
    (jp : String → Except String ContinuityResult) (fuel : Nat) (st : RunState) :
    Option SceneStep :=
  match (checkContinuity sk prev env.continuityText jp).1 with
  | Except.error msg =>
    some { state := analyzeState sk st, outcome := Except.error msg, request := none }
  | Except.ok cc => produceScene sk prev cc env fuel (qaApply sk cc (analyzeState sk st))

/-- The production loop of runDirector: `for (let i = 0; ...) { if (stopSignalRef.current) break; ... }`.
    Returns the state and `some msg` when a scene's processing threw (the
    message the top-level catch receives), `none` on normal loop exit
    (all scenes done, or the stop signal observed at a boundary). -/
def runLoop (envs : Nat → SceneEnv) (jp : String → Except String ContinuityResult)
    (stop : Nat → Bool) (fuel : Nat) :
    List ScriptScene → Nat → Option ScriptScene → RunState → Option (RunState × Option String)
  | [], _, _, st => some (st, none)
  | sk :: rest, k, prev, st =>
    if stop k then some (st, none)
    else
      match processScene sk prev (envs k) jp fuel st with
      | none => none
      | some step =>
        match step.outcome with
        | Except.error msg => some (step.state, some msg)
        | Except.ok p => runLoop envs jp stop fuel rest (k + 1) (some p) step.state

/-- The two logs present before the loop starts: the director's kickoff log
    and the parser's success log. -/
def initLogs : List AgentLog :=
  [{ role := AgentRole.DIRECTOR,
     message := "Initiating pre-production. Delegating script parsing...",
     status := LogStatus.info }]

/-- The run state right after a successful parse phase. -/
def afterParse (items : List ParsedItem) : RunState :=
  { scenes := parseScriptWithGemini items,
    logs := initLogs ++
      [{ role := AgentRole.PARSER,
         message := "Script parsed successfully. Identified " ++
           toString (parseScriptWithGemini items).length ++ " scenes.",
         status := LogStatus.success }] }

/-- The production loop of a run, started from the post-parse state. -/
def runLoopOf (env : RunEnv) (fuel : Nat) (items : List ParsedItem) :
    Option (RunState × Option String) :=
  runLoop env.sceneEnvs env.jsonParse env.stop fuel (parseScriptWithGemini items) 0 none
    (afterParse items)

/-- App.tsx runDirector: reset state, parse (a parse failure is caught at the
    top and logged as a critical failure), run the production loop, then either
    log the single critical-failure event or the final wrap event. `none`
    models a run stuck forever inside a Veo poll loop. -/
def runDirector (env : RunEnv) (fuel : Nat) : Option RunState :=
  match env.parseResult with
  | Except.error msg =>
    some (addLog { scenes := [], logs := initLogs } AgentRole.DIRECTOR
      ("Critical failure: " ++ msg) LogStatus.error)
  | Except.ok items =>
    match runLoopOf env fuel items with
    | none => none
    | some (st3, some msg) =>
      some (addLog st3 AgentRole.DIRECTOR ("Critical failure: " ++ msg) LogStatus.error)
    | some (st3, none) =>
      some (addLog st3 AgentRole.DIRECTOR ("That\x27s a wrap! All scenes processed.")
        LogStatus.success)

/-- `Except.error` as an optional message (the shape the loop reports upward). -/
def exceptErr {α : Type} : Except String α → Option String
  | Except.error m => some m
  | Except.ok _ => none

/-- The scene records whose identity differs from `id` (order preserved). -/
def othersOf (scenes : List ScriptScene) (id : Nat) : List ScriptScene :=
  scenes.filter fun s => s.id != id

/-- The statuses of the scene records carrying identity `id`. -/
def statusesOf (scenes : List ScriptScene) (id : Nat) : List SceneStatus :=
  (scenes.filter fun s => s.id == id).map fun s => s.status

/-- All listed statuses are COMPLETED. -/
def allCompleted (l : List SceneStatus) : Bool :=
  l.all fun c => c == SceneStatus.COMPLETED

/-- A status that shows the scene reached video generation. -/
def genOrDone (c : SceneStatus) : Bool :=
  c == SceneStatus.GENERATING || c == SceneStatus.COMPLETED

/-- How many log records carry severity error. -/
def errorLogCount (logs : List AgentLog) : Nat :=
  (logs.filter fun l => l.status == LogStatus.error).length

/-- The statuses of all scenes in a run result. -/
def finalStatuses (r : Option RunState) : List SceneStatus :=
  match r with
  | none => []
  | some st => st.scenes.map fun s => s.status

/-- The log list of a run result. -/
def finalLogs (r : Option RunState) : List AgentLog :=
  match r with
  | none => []
  | some st => st.logs

/-- The last log record of a run result. -/
def lastLog (r : Option RunState) : Option AgentLog :=
  (finalLogs r).getLast?

/-- Substring scan over character lists (structural, so it evaluates). -/
def strContainsAux (pat : List Char) : List Char → Bool
  | [] => pat.isEmpty
  | c :: rest => pat.isPrefixOf (c :: rest) || strContainsAux pat rest

/-- Substring test used to state whether a message names a scene. -/
def strContains (s pat : String) : Bool :=
  strContainsAux pat.toList s.toList

/-- A produced-clip handle, as the Veo service returns it. -/
def vRef1 : VideoRef := { uri := some ("gs://clip1") }

/-- A completed operation carrying a playable clip. -/
def okOp : Operation := { done := true, error := none, video := some vRef1 }

/-- A Veo oracle whose job is done at once, successfully. -/
def veoOkEnv : VeoEnv := { op0 := okOp, polls := fun _ => okOp }

/-- A completed operation with no video locator in the result. -/
def noUriOp : Operation := { done := true, error := none, video := none }

/-- A Veo oracle whose job completes but returns no locator. -/
def veoNoUriEnv : VeoEnv := { op0 := noUriOp, polls := fun _ => noUriOp }

/-- An operation still running. -/
def notDoneOp : Operation := { done := false, error := none, video := none }

/-- A parser item for scene index 0. -/
def itemA : ParsedItem :=
  { title := "The Call", visualPrompt := "wide shot of the office",
    narrativeContext := "Mike gets a call", imageUrl := none }

/-- A parser item for scene index 1. -/
def itemB : ParsedItem :=
  { title := "No Permits", visualPrompt := "interior with clipboard",
    narrativeContext := "Mike asks for documentation", imageUrl := none }

/-- The first parsed scene record. -/
def sceneA : ScriptScene := sceneOfItem 0 itemA

/-- The second parsed scene record. -/
def sceneB : ScriptScene := sceneOfItem 1 itemB

/-- The first scene after its clip was produced: the `previousScene` record. -/
def sceneADone : ScriptScene :=
  { sceneA with
    videoUri := some ("gs://clip1"),
    videoHandle := some vRef1,
    status := SceneStatus.COMPLETED }

/-- A concrete JSON.parse oracle: parses the text EXT into an extend verdict
    and throws a SyntaxError on everything else (JSON.parse of a non-JSON
    string throws). -/
def jpDemo : String → Except String ContinuityResult :=
  fun s =>
    if s = "EXT" then Except.ok { shouldExtend := true, reasoning := "same shot" }
    else Except.error ("SyntaxError: Unexpected token")

/-- Scene environment whose continuity call answers extend. -/
def envExt : SceneEnv :=
  { continuityText := some ("EXT"), asset := Except.ok ("imgdata"), veo := veoOkEnv }

/-- Scene environment: fresh verdict, asset preparation fails, Veo succeeds. -/
def envFreshFailAsset : SceneEnv :=
  { continuityText := none, asset := Except.error ("HTTP 404"), veo := veoOkEnv }

/-- Scene environment: the Veo job completes without a locator. -/
def envVeoFail : SceneEnv :=
  { continuityText := none, asset := Except.ok ("imgdata"), veo := veoNoUriEnv }

/-- A one-scene run whose Veo job completes with no locator. -/
def cfailEnv : RunEnv :=
  { parseResult := Except.ok [itemA], jsonParse := jpDemo,
    sceneEnvs := fun _ => envVeoFail, stop := fun _ => false }

/-- A one-scene run where the stop signal is already set at the first boundary. -/
def stopEnv : RunEnv :=
  { parseResult := Except.ok [itemA], jsonParse := jpDemo,
    sceneEnvs := fun _ => envVeoFail, stop := fun _ => true }

/-- The identities of a scene list, in order. -/
def sceneIds (l : List ScriptScene) : List Nat :=
  l.map fun s => s.id

/-- A job that never reports done. -/
def constNotDone : Nat → Operation := fun _ => notDoneOp

/-- A job service reporting not-done for the first status query and
    done-with-success from the second one on. -/
def pollsTwice : Nat → Operation := fun i => if i = 0 then notDoneOp else okOp

/-- A completed operation carrying an error payload. -/
def errOp : Operation := { done := true, error := some ("boom"), video := none }

/-- The base state used by the step-level concrete runs: both parsed scenes,
    empty log. -/
def stAB : RunState := { scenes := [sceneA, sceneB], logs := [] }

/-- The continuity verdict the envExt oracle parses. -/
def ccExt : ContinuityResult := { shouldExtend := true, reasoning := "same shot" }

/-- The verdict of the first-scene short circuit. -/
def ccFirst : ContinuityResult :=
  { shouldExtend := false, reasoning := "First scene, nothing to extend." }

/-- The recorded step of processing scene 2 against a completed scene 1 under
    an extend verdict. -/
def stepC1 : SceneStep :=
  (processScene sceneB (some sceneADone) envExt jpDemo 2 stAB).get (by decide)

/-- The extension-mode request that run submits. -/
def rqC1 : VeoRequestInfo :=
  { model := "veo-3.1-generate-preview", prompt := "interior with clipboard",
    video := some vRef1, image := none, resolution := "720p", aspectRatio := "16:9",
    numberOfVideos := 1 }

/-- The recorded step of processing a first scene whose asset preparation
    fails while the Veo job succeeds. -/
def stepC4 : SceneStep :=
  (processScene sceneA none envFreshFailAsset jpDemo 2 stAB).get (by decide)

/-- The recorded step of processing a first scene whose Veo job completes
    without a locator. -/
def stepC7 : SceneStep :=
  (processScene sceneA none envVeoFail jpDemo 2 stAB).get (by decide)

/-- A stop signal observed unset at the first boundary and set afterwards. -/
def stopAfterFirst : Nat → Bool := fun i => i != 0

/-- A stop signal never set. -/
def stopNever : Nat → Bool := fun _ => false

/-- A per-scene oracle assigning every scene the failing-asset environment. -/
def envsC6 : Nat → SceneEnv := fun _ => envFreshFailAsset

/-- A per-scene oracle assigning every scene the no-locator Veo environment. -/
def envsC7 : Nat → SceneEnv := fun _ => envVeoFail

/-- The loop result of the failing one-scene run. -/
def loopC7 : RunState × Option String :=
  (runLoopOf cfailEnv 2 [itemA]).get (by decide)

/-! ## General lemmas about the embedded operations -/

theorem scenesFromItemsAux_length (items : List ParsedItem) :
    ∀ start, (scenesFromItemsAux start items).length = items.length := by
  induction items with
  | nil => intro start; rfl
  | cons it rest ih =>
    intro start
    simp [scenesFromItemsAux, ih (start + 1)]

theorem scenesFromItemsAux_ids (items : List ParsedItem) :
    ∀ start, sceneIds (scenesFromItemsAux start items) = List.range' (start + 1) items.length := by
  induction items with
  | nil => intro start; rfl
  | cons it rest ih =>
    intro start
    show (sceneOfItem start it).id :: sceneIds (scenesFromItemsAux (start + 1) rest)
        = List.range' (start + 1) (rest.length + 1)
    rw [List.range'_succ (start + 1) rest.length 1]
    exact congrArg (List.cons (start + 1)) (ih (start + 1))

theorem pollLoop_not_done {polls : Nat → Operation} (hp : ∀ i, (polls i).done = false) :
    ∀ fuel op waits, op.done = false → pollLoop polls fuel op waits = none := by
  intro fuel
  induction fuel with
  | zero => intro op waits h; simp [pollLoop, h]
  | succ n ih =>
    intro op waits h
    simp only [pollLoop, h]
    simpa using ih (polls waits) (waits + 1) (hp waits)

theorem pollLoop_done {polls : Nat → Operation} {op : Operation} (h : op.done = true) :
    ∀ fuel waits, pollLoop polls fuel op waits = some (op, waits) := by
  intro fuel waits
  cases fuel <;> simp [pollLoop, h]

theorem pollLoop_two {polls : Nat → Operation} {op0 : Operation} {fuel : Nat}
    (h0 : op0.done = false) (h1 : (polls 0).done = false) (h2 : (polls 1).done = true)
    (hf : 2 ≤ fuel) : pollLoop polls fuel op0 0 = some (polls 1, 2) := by
  obtain ⟨k, rfl⟩ : ∃ k, fuel = k + 2 := ⟨fuel - 2, by omega⟩
  show pollLoop polls (k + 1 + 1) op0 0 = some (polls 1, 2)
  simp only [pollLoop, h0, h1, if_false]
  exact pollLoop_done h2 k 2

theorem generateVeoVideo_request (scene : ScriptScene) (ph : Option VideoRef) (se : Bool)
    (img : Option String) (env : VeoEnv) (fuel : Nat) :
    (generateVeoVideo scene ph se img env fuel).request = veoRequest scene ph se img := by
  unfold generateVeoVideo
  cases h : pollLoop env.polls fuel env.op0 0 with
  | none => simp [h]
  | some pr => cases pr with | mk opf waits => simp [h]

theorem generateVeoVideo_result (scene : ScriptScene) (ph : Option VideoRef) (se : Bool)
    (img : Option String) (env : VeoEnv) (fuel : Nat) :
    (generateVeoVideo scene ph se img env fuel).result =
      (pollLoop env.polls fuel env.op0 0).map fun pr => (pr.2, finishOp pr.1) := by
  unfold generateVeoVideo
  cases h : pollLoop env.polls fuel env.op0 0 with
  | none => simp [h]
  | some pr => cases pr with | mk opf waits => simp [h]

theorem generateVeoVideo_logcount (scene : ScriptScene) (ph : Option VideoRef) (se : Bool)
    (img : Option String) (env : VeoEnv) (fuel : Nat) :
    errorLogCount (generateVeoVideo scene ph se img env fuel).logs = 0 := by
  unfold generateVeoVideo
  cases h : pollLoop env.polls fuel env.op0 0 with
  | none =>
    by_cases he : (se && ph.isSome) = true <;> cases img <;> simp [h, he] <;> rfl
  | some pr =>
    cases pr with
    | mk opf waits =>
      by_cases he : (se && ph.isSome) = true <;> cases img <;> simp [h, he] <;> rfl

theorem updateSceneData_status_pred {p : SceneStatus → Prop} {scenes : List ScriptScene}
    {id : Nat} {g : ScriptScene → ScriptScene}
    (hs : ∀ s ∈ scenes, p s.status) (hg : ∀ s ∈ scenes, p ((g s).status)) :
    ∀ t ∈ updateSceneData scenes id g, p t.status := by
  intro t ht
  rcases List.mem_map.1 ht with ⟨s, hsm, heq⟩
  subst heq
  by_cases h : s.id = id
  · simpa [h] using hg s hsm
  · simpa [h] using hs s hsm

theorem updateSceneStatus_status_pred {p : SceneStatus → Prop} {scenes : List ScriptScene}
    {id : Nat} {c : SceneStatus}
    (hs : ∀ s ∈ scenes, p s.status) (hc : p c) :
    ∀ t ∈ updateSceneStatus scenes id c, p t.status :=
  updateSceneData_status_pred hs (fun _ _ => hc)

theorem updateSceneData_others {scenes : List ScriptScene} {id : Nat}
    {g : ScriptScene → ScriptScene} (hg : ∀ s, (g s).id = s.id) :
    othersOf (updateSceneData scenes id g) id = othersOf scenes id := by
  induction scenes with
  | nil => rfl
  | cons s rest ih =>
    show othersOf ((if s.id = id then g s else s) :: updateSceneData rest id g) id
        = othersOf (s :: rest) id
    simp only [othersOf, List.filter_cons] at ih ⊢
    by_cases h : s.id = id
    · simp [h, hg s, ih]
    · simp [h, ih]

theorem updateSceneStatus_others {scenes : List ScriptScene} {id : Nat} {c : SceneStatus} :
    othersOf (updateSceneStatus scenes id c) id = othersOf scenes id :=
  updateSceneData_others (fun _ => rfl)

theorem statusesOf_update_all {scenes : List ScriptScene} {id : Nat}
    {g : ScriptScene → ScriptScene} {q : SceneStatus → Bool}
    (hgid : ∀ s, (g s).id = s.id) (hq : ∀ s, q (g s).status = true) :
    (statusesOf (updateSceneData scenes id g) id).all q = true := by
  induction scenes with
  | nil => rfl
  | cons s rest ih =>
    show (statusesOf ((if s.id = id then g s else s) :: updateSceneData rest id g) id).all q
        = true
    simp only [statusesOf, List.filter_cons] at ih ⊢
    by_cases h : s.id = id
    · simp [h, hgid s, hq s, ih]
    · simp [h, ih]

theorem errorLogCount_append (l1 l2 : List AgentLog) :
    errorLogCount (l1 ++ l2) = errorLogCount l1 + errorLogCount l2 := by
  simp [errorLogCount, List.filter_append]

theorem errorLogCount_nonerror_cons (l : List AgentLog) (x : AgentLog)
    (hx : (x.status == LogStatus.error) = false) :
    errorLogCount (l ++ [x]) = errorLogCount l := by
  rw [errorLogCount_append]
  simp [errorLogCount, List.filter_cons, hx]

theorem assetStage_snd (sk : ScriptScene) (a : Except String String) (st : RunState) :
    (assetStage sk a st).2 = assetImage a := by
  cases a <;> rfl

theorem assetStage_others (sk : ScriptScene) (a : Except String String) (st : RunState) :
    othersOf (assetStage sk a st).1.scenes sk.id = othersOf st.scenes sk.id := by
  cases a with
  | ok img =>
    simp only [assetStage]
    rw [updateSceneData_others, updateSceneStatus_others]
    exact fun _ => rfl
  | error e =>
    simp only [assetStage]
    rw [updateSceneStatus_others]

theorem assetStage_status_pred {p : SceneStatus → Prop} {sk : ScriptScene}
    {a : Except String String} {st : RunState}
    (hs : ∀ s ∈ st.scenes, p s.status) (hP : p SceneStatus.PREPARING_ASSETS) :
    ∀ t ∈ (assetStage sk a st).1.scenes, p t.status := by
  cases a with
  | ok img =>
    simp only [assetStage]
    exact updateSceneData_status_pred
      (updateSceneStatus_status_pred hs hP)
      (fun s hsm => updateSceneStatus_status_pred hs hP s hsm)
  | error e =>
    simp only [assetStage]
    exact updateSceneStatus_status_pred hs hP

theorem assetStage_logcount (sk : ScriptScene) (a : Except String String) (st : RunState) :
    errorLogCount (assetStage sk a st).1.logs = errorLogCount st.logs := by
  cases a with
  | ok img =>
    simp only [assetStage]
    rw [errorLogCount_nonerror_cons, errorLogCount_nonerror_cons,
      errorLogCount_nonerror_cons] <;> rfl
  | error e =>
    simp only [assetStage]
    rw [errorLogCount_nonerror_cons, errorLogCount_nonerror_cons,
      errorLogCount_nonerror_cons] <;> rfl

theorem qaLog_not_error (sk : ScriptScene) (cc : ContinuityResult) :
    ((qaLog sk cc).status == LogStatus.error) = false := by
  by_cases h : cc.shouldExtend <;> simp [qaLog, h]

theorem produceScene_request {sk : ScriptScene} {prev : Option ScriptScene}
    {cc : ContinuityResult} {env : SceneEnv} {fuel : Nat} {stB : RunState} {step : SceneStep}
    (hstep : produceScene sk prev cc env fuel stB = some step) :
    step.request = some (veoRequest sk (prevHandle prev)
      (cc.shouldExtend && (prevHandle prev).isSome)
      (if cc.shouldExtend then none else assetImage env.asset)) := by
  have himg : (if cc.shouldExtend then (stB, (none : Option String))
      else assetStage sk env.asset stB).2
      = (if cc.shouldExtend then none else assetImage env.asset) := by
    by_cases h : cc.shouldExtend <;> simp [h, assetStage_snd]
  simp only [produceScene] at hstep
  rw [himg] at hstep
  split at hstep
  · exact Option.noConfusion hstep
  · injection hstep with h
    subst h
    simp [generateVeoVideo_request]
  · injection hstep with h
    subst h
    simp [generateVeoVideo_request]

theorem produceScene_others {sk : ScriptScene} {prev : Option ScriptScene}
    {cc : ContinuityResult} {env : SceneEnv} {fuel : Nat} {stB : RunState} {step : SceneStep}
    (hstep : produceScene sk prev cc env fuel stB = some step) :
    othersOf step.state.scenes sk.id = othersOf stB.scenes sk.id := by
  have hpr : othersOf (if cc.shouldExtend then (stB, (none : Option String))
      else assetStage sk env.asset stB).1.scenes sk.id = othersOf stB.scenes sk.id := by
    by_cases h : cc.shouldExtend <;> simp [h, assetStage_others]
  simp only [produceScene] at hstep
  split at hstep
  · exact Option.noConfusion hstep
  · injection hstep with h
    subst h
    simp only [greenlitState]
    rw [updateSceneStatus_others]
    exact hpr
  · injection hstep with h
    subst h
    simp only [completedApply, greenlitState]
    rw [updateSceneData_others, updateSceneStatus_others]
    · exact hpr
    · exact fun _ => rfl

theorem produceScene_status_pred {p : SceneStatus → Prop} {sk : ScriptScene}
    {prev : Option ScriptScene} {cc : ContinuityResult} {env : SceneEnv} {fuel : Nat}
    {stB : RunState} {step : SceneStep}
    (hs : ∀ s ∈ stB.scenes, p s.status)
    (hP : p SceneStatus.PREPARING_ASSETS) (hG : p SceneStatus.GENERATING)
    (hC : p SceneStatus.COMPLETED)
    (hstep : produceScene sk prev cc env fuel stB = some step) :
    ∀ t ∈ step.state.scenes, p t.status := by
  have hpr : ∀ t ∈ (if cc.shouldExtend then (stB, (none : Option String))
      else assetStage sk env.asset stB).1.scenes, p t.status := by
    by_cases h : cc.shouldExtend
    · simpa [h] using hs
    · simp only [if_neg h]
      exact assetStage_status_pred hs hP
  simp only [produceScene] at hstep
  split at hstep
  · exact Option.noConfusion hstep
  · injection hstep with h
    subst h
    simp only [greenlitState]
    exact updateSceneStatus_status_pred hpr hG
  · injection hstep with h
    subst h
    simp only [completedApply, greenlitState]
    exact updateSceneData_status_pred
      (updateSceneStatus_status_pred hpr hG) (fun _ _ => hC)

theorem produceScene_outcome {sk : ScriptScene} {prev : Option ScriptScene}
    {cc : ContinuityResult} {env : SceneEnv} {fuel : Nat} {stB : RunState} {step : SceneStep}
    (hstep : produceScene sk prev cc env fuel stB = some step) :
    ((exceptErr step.outcome).isSome
      || allCompleted (statusesOf step.state.scenes sk.id)) = true := by
  simp only [produceScene] at hstep
  split at hstep
  · exact Option.noConfusion hstep
  · injection hstep with h
    subst h
    rfl
  · injection hstep with h
    subst h
    exact statusesOf_update_all (fun _ => rfl) (fun _ => rfl)

theorem produceScene_logcount {sk : ScriptScene} {prev : Option ScriptScene}
    {cc : ContinuityResult} {env : SceneEnv} {fuel : Nat} {stB : RunState} {step : SceneStep}
    (hstep : produceScene sk prev cc env fuel stB = some step) :
    errorLogCount step.state.logs = errorLogCount stB.logs := by
  have hpr : errorLogCount (if cc.shouldExtend then (stB, (none : Option String))
      else assetStage sk env.asset stB).1.logs = errorLogCount stB.logs := by
    by_cases h : cc.shouldExtend <;> simp [h, assetStage_logcount]
  simp only [produceScene] at hstep
  split at hstep
  · exact Option.noConfusion hstep
  · injection hstep with h
    subst h
    simp only [greenlitState]
    rw [errorLogCount_append, generateVeoVideo_logcount, errorLogCount_nonerror_cons]
    · simp [hpr]
    · rfl
  · injection hstep with h
    subst h
    simp only [completedApply, greenlitState]
    rw [errorLogCount_nonerror_cons]
    · rw [errorLogCount_append, generateVeoVideo_logcount, errorLogCount_nonerror_cons]
      · simp [hpr]
      · rfl
    · rfl

theorem processScene_others {sk : ScriptScene} {prev : Option ScriptScene} {env : SceneEnv}
    {jp : String → Except String ContinuityResult} {fuel : Nat} {st : RunState} {step : SceneStep}
    (hstep : processScene sk prev env jp fuel st = some step) :
    othersOf step.state.scenes sk.id = othersOf st.scenes sk.id := by
  unfold processScene at hstep
  split at hstep
  · injection hstep with h
    subst h
    simp only [analyzeState]
    rw [updateSceneStatus_others]
  · rw [produceScene_others hstep]
    simp only [qaApply, analyzeState]
    rw [updateSceneData_others, updateSceneStatus_others]
    exact fun _ => rfl

theorem processScene_status_pred {p : SceneStatus → Prop} {sk : ScriptScene}
    {prev : Option ScriptScene} {env : SceneEnv}
    {jp : String → Except String ContinuityResult} {fuel : Nat} {st : RunState} {step : SceneStep}
    (hs : ∀ s ∈ st.scenes, p s.status)
    (hA : p SceneStatus.ANALYZING) (hP : p SceneStatus.PREPARING_ASSETS)
    (hG : p SceneStatus.GENERATING) (hC : p SceneStatus.COMPLETED)
    (hstep : processScene sk prev env jp fuel st = some step) :
    ∀ t ∈ step.state.scenes, p t.status := by
  unfold processScene at hstep
  split at hstep
  · injection hstep with h
    subst h
    simp only [analyzeState]
    exact updateSceneStatus_status_pred hs hA
  · refine produceScene_status_pred ?_ hP hG hC hstep
    simp only [qaApply, analyzeState]
    exact updateSceneData_status_pred
      (updateSceneStatus_status_pred hs hA)
      (fun s hsm => updateSceneStatus_status_pred hs hA s hsm)

theorem processScene_logcount {sk : ScriptScene} {prev : Option ScriptScene} {env : SceneEnv}
    {jp : String → Except String ContinuityResult} {fuel : Nat} {st : RunState} {step : SceneStep}
    (hstep : processScene sk prev env jp fuel st = some step) :
    errorLogCount step.state.logs = errorLogCount st.logs := by
  unfold processScene at hstep
  split at hstep
  · injection hstep with h
    subst h
    simp only [analyzeState]
    rw [errorLogCount_nonerror_cons]
    rfl
  · rw [produceScene_logcount hstep]
    simp only [qaApply, analyzeState]
    rw [errorLogCount_nonerror_cons]
    · rw [errorLogCount_nonerror_cons]
      rfl
    · exact qaLog_not_error _ _

theorem processScene_outcome {sk : ScriptScene} {prev : Option ScriptScene} {env : SceneEnv}
    {jp : String → Except String ContinuityResult} {fuel : Nat} {st : RunState} {step : SceneStep}
    (hstep : processScene sk prev env jp fuel st = some step) :
    ((exceptErr step.outcome).isSome
      || allCompleted (statusesOf step.state.scenes sk.id)) = true := by
  unfold processScene at hstep
  split at hstep
  · injection hstep with h
    subst h
    rfl
  · exact produceScene_outcome hstep

theorem processScene_request {sk : ScriptScene} {prev : Option ScriptScene} {env : SceneEnv}
    {jp : String → Except String ContinuityResult} {fuel : Nat} {st : RunState} {step : SceneStep}
    {cc : ContinuityResult}
    (hcc : (checkContinuity sk prev env.continuityText jp).1 = Except.ok cc)
    (hstep : processScene sk prev env jp fuel st = some step) :
    step.request = some (veoRequest sk (prevHandle prev)
      (cc.shouldExtend && (prevHandle prev).isSome)
      (if cc.shouldExtend then none else assetImage env.asset)) := by
  unfold processScene at hstep
  rw [hcc] at hstep
  exact produceScene_request hstep

theorem processScene_warn {sk : ScriptScene} {prev : Option ScriptScene} {env : SceneEnv}
    {jp : String → Except String ContinuityResult} {fuel : Nat} {st : RunState} {step : SceneStep}
    {cc : ContinuityResult} {emsg : String}
    (hcc : (checkContinuity sk prev env.continuityText jp).1 = Except.ok cc)
    (hse : cc.shouldExtend = false) (ha : env.asset = Except.error emsg)
    (hstep : processScene sk prev env jp fuel st = some step) :
    assetFailLog emsg ∈ step.state.logs := by
  unfold processScene at hstep
  rw [hcc] at hstep
  simp only [produceScene, hse, if_false, ha] at hstep
  split at hstep
  · exact Option.noConfusion hstep
  · injection hstep with h
    subst h
    simp [assetStage, greenlitState, List.mem_append]
  · injection hstep with h
    subst h
    simp [assetStage, completedApply, greenlitState, List.mem_append]

theorem processScene_genstatus {sk : ScriptScene} {prev : Option ScriptScene} {env : SceneEnv}
    {jp : String → Except String ContinuityResult} {fuel : Nat} {st : RunState} {step : SceneStep}
    {cc : ContinuityResult}
    (hcc : (checkContinuity sk prev env.continuityText jp).1 = Except.ok cc)
    (hstep : processScene sk prev env jp fuel st = some step) :
    (statusesOf step.state.scenes sk.id).all genOrDone = true := by
  unfold processScene at hstep
  rw [hcc] at hstep
  simp only [produceScene] at hstep
  split at hstep
  · exact Option.noConfusion hstep
  · injection hstep with h
    subst h
    simp only [greenlitState]
    exact statusesOf_update_all (fun _ => rfl) (fun _ => rfl)
  · injection hstep with h
    subst h
    simp only [completedApply]
    exact statusesOf_update_all (fun _ => rfl) (fun _ => rfl)

theorem runLoop_nil (envs : Nat → SceneEnv) (jp : String → Except String ContinuityResult)
    (stop : Nat → Bool) (fuel k : Nat) (prev : Option ScriptScene) (st : RunState) :
    runLoop envs jp stop fuel [] k prev st = some (st, none) := rfl

theorem runLoop_cons_stop {envs : Nat → SceneEnv} {jp : String → Except String ContinuityResult}
    {stop : Nat → Bool} {fuel : Nat} {sk : ScriptScene} {rest : List ScriptScene}
    {k : Nat} {prev : Option ScriptScene} {st : RunState} (h : stop k = true) :
    runLoop envs jp stop fuel (sk :: rest) k prev st = some (st, none) := by
  simp [runLoop, h]

theorem runLoop_cons_fail {envs : Nat → SceneEnv} {jp : String → Except String ContinuityResult}
    {stop : Nat → Bool} {fuel : Nat} {sk : ScriptScene} {rest : List ScriptScene}
    {k : Nat} {prev : Option ScriptScene} {st : RunState} {step : SceneStep} {msg : String}
    (h : stop k = false) (hstep : processScene sk prev (envs k) jp fuel st = some step)
    (ho : step.outcome = Except.error msg) :
    runLoop envs jp stop fuel (sk :: rest) k prev st = some (step.state, some msg) := by
  simp [runLoop, h, hstep, ho]

theorem runLoop_cons_ok {envs : Nat → SceneEnv} {jp : String → Except String ContinuityResult}
    {stop : Nat → Bool} {fuel : Nat} {sk : ScriptScene} {rest : List ScriptScene}
    {k : Nat} {prev : Option ScriptScene} {st : RunState} {step : SceneStep} {p : ScriptScene}
    (h : stop k = false) (hstep : processScene sk prev (envs k) jp fuel st = some step)
    (ho : step.outcome = Except.ok p) :
    runLoop envs jp stop fuel (sk :: rest) k prev st =
      runLoop envs jp stop fuel rest (k + 1) (some p) step.state := by
  simp [runLoop, h, hstep, ho]

theorem runLoop_status_pred {p : SceneStatus → Prop}
    (hA : p SceneStatus.ANALYZING) (hP : p SceneStatus.PREPARING_ASSETS)
    (hG : p SceneStatus.GENERATING) (hC : p SceneStatus.COMPLETED) :
    ∀ (lst : List ScriptScene) (envs : Nat → SceneEnv)
      (jp : String → Except String ContinuityResult) (stop : Nat → Bool) (fuel k : Nat)
      (prev : Option ScriptScene) (st stF : RunState) (x : Option String),
      (∀ s ∈ st.scenes, p s.status) →
      runLoop envs jp stop fuel lst k prev st = some (stF, x) →
      ∀ t ∈ stF.scenes, p t.status := by
  intro lst
  induction lst with
  | nil =>
    intro envs jp stop fuel k prev st stF x hs hr
    rw [runLoop_nil] at hr
    injection hr with h
    cases h
    exact hs
  | cons sk rest ih =>
    intro envs jp stop fuel k prev st stF x hs hr
    by_cases hstop : stop k = true
    · rw [runLoop_cons_stop hstop] at hr
      injection hr with h
      cases h
      exact hs
    · have hsf : stop k = false := by revert hstop; cases stop k <;> simp
      cases hps : processScene sk prev (envs k) jp fuel st with
      | none =>
        simp [runLoop, hsf, hps] at hr
      | some step =>
        have hinv := processScene_status_pred hs hA hP hG hC hps
        cases ho : step.outcome with
        | error msg =>
          rw [runLoop_cons_fail hsf hps ho] at hr
          injection hr with h
          cases h
          exact hinv
        | ok pp =>
          rw [runLoop_cons_ok hsf hps ho] at hr
          exact ih envs jp stop fuel (k + 1) (some pp) step.state stF x hinv hr

theorem runLoop_logcount :
    ∀ (lst : List ScriptScene) (envs : Nat → SceneEnv)
      (jp : String → Except String ContinuityResult) (stop : Nat → Bool) (fuel k : Nat)
      (prev : Option ScriptScene) (st stF : RunState) (x : Option String),
      runLoop envs jp stop fuel lst k prev st = some (stF, x) →
      errorLogCount stF.logs = errorLogCount st.logs := by
  intro lst
  induction lst with
  | nil =>
    intro envs jp stop fuel k prev st stF x hr
    rw [runLoop_nil] at hr
    injection hr with h
    cases h
    rfl
  | cons sk rest ih =>
    intro envs jp stop fuel k prev st stF x hr
    by_cases hstop : stop k = true
    · rw [runLoop_cons_stop hstop] at hr
      injection hr with h
      cases h
      rfl
    · have hsf : stop k = false := by revert hstop; cases stop k <;> simp
      cases hps : processScene sk prev (envs k) jp fuel st with
      | none =>
        simp [runLoop, hsf, hps] at hr
      | some step =>
        cases ho : step.outcome with
        | error msg =>
          rw [runLoop_cons_fail hsf hps ho] at hr
          injection hr with h
          cases h
          exact processScene_logcount hps
        | ok pp =>
          rw [runLoop_cons_ok hsf hps ho] at hr
          rw [ih envs jp stop fuel (k + 1) (some pp) step.state stF x hr]
          exact processScene_logcount hps

/-! ## Claim theorems -/

/-- C8: the continuity evaluator, given a first scene (no predecessor), always
    returns the do-not-extend verdict with a rationale, without making any
    external call, whatever the oracle would have answered. -/
theorem spec_c8 : ∀ cur responseText jp,
    checkContinuity cur none responseText jp =
      (Except.ok { shouldExtend := false, reasoning := "First scene, nothing to extend." },
       false) :=
  fun _ _ _ => rfl

/-- C9: for every parser output, the scene identities form the dense, strictly
    increasing sequence 1, 2, ..., n in input order (item at position i gets
    identity i+1), and one scene is produced per item. -/
theorem spec_c9 : ∀ items,
    sceneIds (parseScriptWithGemini items) = List.range' 1 items.length ∧
    (parseScriptWithGemini items).length = items.length := by
  intro items
  refine ⟨?_, scenesFromItemsAux_length items 0⟩
  simpa using scenesFromItemsAux_ids items 0

/-- C2 (amended): the do-not-extend safe default with the parse-failure
    rationale applies exactly when the external call's output text is absent
    or empty (the falsy fallback of `response.text || defaultLiteral`); a
    non-empty output that JSON.parse cannot parse instead raises the parse
    error, which propagates out of the evaluator and aborts the run. -/
theorem spec_c2_amended :
    (∀ cur prev jp, checkContinuity cur (some prev) none jp =
        (Except.ok { shouldExtend := false, reasoning := "Parse error" }, true)) ∧
    (∀ cur prev jp, checkContinuity cur (some prev) (some ("")) jp =
        (Except.ok { shouldExtend := false, reasoning := "Parse error" }, true)) ∧
    (∀ cur prev jp s e, s ≠ "" → jp s = Except.error e →
        checkContinuity cur (some prev) (some s) jp = (Except.error e, true)) := by
  refine ⟨fun cur prev jp => rfl, fun cur prev jp => rfl, fun cur prev jp s e hs hjp => ?_⟩
  simp [checkContinuity, hs, hjp]

/-- C2 witness: the safe default on an absent text, and the raised SyntaxError
    on a concrete non-empty unparseable text, at concrete inputs. -/
theorem spec_c2_witness :
    (checkContinuity sceneB (some sceneA) none jpDemo =
      (Except.ok { shouldExtend := false, reasoning := "Parse error" }, true)) ∧
    (checkContinuity sceneB (some sceneA) (some ("garbage")) jpDemo =
      (Except.error ("SyntaxError: Unexpected token"), true)) :=
  ⟨spec_c2_amended.1 sceneB sceneA jpDemo,
   spec_c2_amended.2.2 sceneB sceneA jpDemo ("garbage") ("SyntaxError: Unexpected token")
     (by decide) rfl⟩

/-- C2 counterexample: an external call returning the non-empty unparseable
    text "not valid json" makes the evaluator raise the JSON.parse SyntaxError
    (an `Except.error`, which aborts the run) instead of returning the
    do-not-extend safe default the claim promises for every unparseable
    output. -/
theorem spec_c2_counterexample :
    checkContinuity sceneB (some sceneA) (some ("not valid json")) jpDemo =
      (Except.error ("SyntaxError: Unexpected token"), true) := rfl

/-- C5: the poll loop returns a result only when the job reports done — a job
    that never reports done leaves the loop polling forever (no result for any
    fuel); and with a mocked service reporting not-done twice (the submission
    response and the first status query) and then done-with-success, the call
    returns the clip after exactly two fixed-interval waits, the interval
    being 5000 milliseconds. -/
theorem spec_c5 :
    (∀ scene ph se img op0 polls fuel,
       op0.done = false → (∀ i, (polls i).done = false) →
       (generateVeoVideo scene ph se img { op0 := op0, polls := polls } fuel).result = none) ∧
    (∀ scene ph se img op0 polls fuel u v,
       op0.done = false → (polls 0).done = false →
       polls 1 = { done := true, error := none, video := some v } →
       v.uri = some u → 2 ≤ fuel →
       (generateVeoVideo scene ph se img { op0 := op0, polls := polls } fuel).result =
         some (2, Except.ok (u, v)) ∧ pollIntervalMs = 5000) := by
  constructor
  · intro scene ph se img op0 polls fuel h0 hp
    rw [generateVeoVideo_result]
    rw [pollLoop_not_done hp fuel op0 0 h0]
    rfl
  · intro scene ph se img op0 polls fuel u v h0 h1 h2 hu hf
    refine ⟨?_, rfl⟩
    rw [generateVeoVideo_result]
    rw [pollLoop_two h0 h1 (by rw [h2]) hf]
    simp [finishOp, h2, hu]

/-- C5 witness: a never-done mock keeps the loop unfinished, and the
    twice-not-done-then-done mock yields the clip after exactly two waits. -/
theorem spec_c5_witness :
    ((generateVeoVideo sceneA none false none { op0 := notDoneOp, polls := constNotDone } 3).result
       = none) ∧
    ((generateVeoVideo sceneA none false none { op0 := notDoneOp, polls := pollsTwice } 5).result =
       some (2, Except.ok ("gs://clip1", vRef1)) ∧ pollIntervalMs = 5000) :=
  ⟨spec_c5.1 sceneA none false none notDoneOp constNotDone 3 rfl (fun _ => rfl),
   spec_c5.2 sceneA none false none notDoneOp pollsTwice 5 ("gs://clip1") vRef1
     rfl rfl rfl rfl (by decide)⟩

theorem scenesFromItemsAux_status (items : List ParsedItem) :
    ∀ start s, s ∈ scenesFromItemsAux start items → s.status = SceneStatus.IDLE := by
  induction items with
  | nil => intro start s hs; exact absurd hs (List.not_mem_nil s)
  | cons it rest ih =>
    intro start s hs
    rcases List.mem_cons.mp hs with h | h
    · rw [h]; rfl
    · exact ih (start + 1) s h

theorem contains_status_eq_false {scenes : List ScriptScene} {c : SceneStatus}
    (h : ∀ s ∈ scenes, s.status ≠ c) :
    ((scenes.map fun s => s.status).contains c) = false := by
  cases hc : (scenes.map fun s => s.status).contains c
  · rfl
  · exfalso
    rcases List.mem_map.mp (List.mem_of_elem_eq_true hc) with ⟨s, hs, heq⟩
    exact h s hs heq

/-- C1: given the continuity verdict for a scene, the Veo request the loop
    submits is in extension mode (handle attached, higher-fidelity model)
    exactly when the verdict is extend AND the predecessor record carries a
    continuation handle; in every other case the request is fresh-mode, built
    on the fast model with no continuation handle attached. An extend verdict
    also leaves the request without a seed image (asset preparation skipped). -/
theorem spec_c1 :
    ∀ sk prev env jp fuel st step cc rq,
      (checkContinuity sk prev env.continuityText jp).1 = Except.ok cc →
      processScene sk prev env jp fuel st = some step →
      step.request = some rq →
      rq.video = (if cc.shouldExtend && (prevHandle prev).isSome then prevHandle prev
        else none) ∧
      rq.model = (if cc.shouldExtend && (prevHandle prev).isSome then "veo-3.1-generate-preview"
        else "veo-3.1-fast-generate-preview") ∧
      rq.image = (if cc.shouldExtend then none else assetImage env.asset) := by
  intro sk prev env jp fuel st step cc rq hcc hstep hrq
  have h := processScene_request hcc hstep
  rw [hrq] at h
  injection h with h
  subst h
  by_cases hx : (cc.shouldExtend && (prevHandle prev).isSome) = true
  · have hx' : cc.shouldExtend = true ∧ (prevHandle prev).isSome = true := by simpa using hx
    simp [veoRequest, hx, hx'.1, hx'.2]
  · simp [veoRequest, hx]

/-- C1 witness: scene 2 with an extend verdict and a completed scene 1 gets
    the extension request carrying scene 1's handle, no seed image. -/
theorem spec_c1_witness :
    rqC1.video = (if ccExt.shouldExtend && (prevHandle (some sceneADone)).isSome
      then prevHandle (some sceneADone) else none) ∧
    rqC1.model = (if ccExt.shouldExtend && (prevHandle (some sceneADone)).isSome
      then "veo-3.1-generate-preview" else "veo-3.1-fast-generate-preview") ∧
    rqC1.image = (if ccExt.shouldExtend then none else assetImage envExt.asset) :=
  spec_c1 sceneB (some sceneADone) envExt jpDemo 2 stAB stepC1 ccExt rqC1 rfl
    (Option.some_get (by decide)).symm (by decide)

/-- C4: when asset preparation fails on a fresh-mode scene, the run is not
    aborted: the warning is logged, the submitted request is fresh with no
    seed image attached, and the scene's records reach GENERATING (or
    COMPLETED once generation succeeds). -/
theorem spec_c4 :
    ∀ sk prev env jp fuel st step cc emsg,
      (checkContinuity sk prev env.continuityText jp).1 = Except.ok cc →
      cc.shouldExtend = false →
      env.asset = Except.error emsg →
      processScene sk prev env jp fuel st = some step →
      step.request = some (veoRequest sk (prevHandle prev) false none) ∧
      assetFailLog emsg ∈ step.state.logs ∧
      (statusesOf step.state.scenes sk.id).all genOrDone = true := by
  intro sk prev env jp fuel st step cc emsg hcc hse ha hstep
  refine ⟨?_, processScene_warn hcc hse ha hstep, processScene_genstatus hcc hstep⟩
  have h := processScene_request hcc hstep
  rw [h, hse, ha]
  simp [assetImage]

/-- C4 witness: a first scene whose asset fetch fails with HTTP 404 still gets
    a fresh no-image request, the warning log, and generation-stage statuses. -/
theorem spec_c4_witness :
    stepC4.request = some (veoRequest sceneA (prevHandle none) false none) ∧
    assetFailLog ("HTTP 404") ∈ stepC4.state.logs ∧
    (statusesOf stepC4.state.scenes sceneA.id).all genOrDone = true :=
  spec_c4 sceneA none envFreshFailAsset jpDemo 2 stAB stepC4 ccFirst ("HTTP 404")
    rfl rfl rfl (Option.some_get (by decide)).symm

/-- C6: a stop signal observed unset at scene k's boundary but set at the next
    boundary does not truncate scene k: the loop result is exactly the state
    after scene k's full processing (the scene either failed, reporting its
    message upward, or its records were completed), records of other scenes
    are untouched, and scene k+1 — the head of `rest` — is never started. -/
theorem spec_c6 :
    ∀ envs jp stop fuel sk rest k prev st step,
      stop k = false → stop (k + 1) = true →
      processScene sk prev (envs k) jp fuel st = some step →
      runLoop envs jp stop fuel (sk :: rest) k prev st
        = some (step.state, exceptErr step.outcome) ∧
      othersOf step.state.scenes sk.id = othersOf st.scenes sk.id ∧
      ((exceptErr step.outcome).isSome
        || allCompleted (statusesOf step.state.scenes sk.id)) = true := by
  intro envs jp stop fuel sk rest k prev st step h0 h1 hstep
  refine ⟨?_, processScene_others hstep, processScene_outcome hstep⟩
  cases ho : step.outcome with
  | error msg =>
    rw [runLoop_cons_fail h0 hstep ho]
    rfl
  | ok p =>
    rw [runLoop_cons_ok h0 hstep ho]
    cases rest with
    | nil => rfl
    | cons s2 r2 =>
      rw [runLoop_cons_stop h1]
      rfl

/-- C6 witness: with the stop signal raised after the first boundary, the
    two-scene loop fully processes scene 1 and never starts scene 2. -/
theorem spec_c6_witness :
    runLoop envsC6 jpDemo stopAfterFirst 2 (sceneA :: [sceneB]) 0 none stAB
      = some (stepC4.state, exceptErr stepC4.outcome) ∧
    othersOf stepC4.state.scenes sceneA.id = othersOf stAB.scenes sceneA.id ∧
    ((exceptErr stepC4.outcome).isSome
      || allCompleted (statusesOf stepC4.state.scenes sceneA.id)) = true :=
  spec_c6 envsC6 jpDemo stopAfterFirst 2 sceneA [sceneB] 0 none stAB stepC4
    rfl rfl (Option.some_get (by decide)).symm

/-- C3 counterexample: in a one-scene run whose Veo job completes without a
    locator — an unrecoverable failure, witnessed by the single terminal error
    event — the failing scene stays in the in-progress GENERATING status and
    the ERROR lifecycle status is never assigned, contradicting the claimed
    transition into the error absorption state. -/
theorem spec_c3_counterexample :
    finalStatuses (runDirector cfailEnv 2) = [SceneStatus.GENERATING] ∧
    errorLogCount (finalLogs (runDirector cfailEnv 2)) = 1 ∧
    ((finalStatuses (runDirector cfailEnv 2)).contains SceneStatus.ERROR) = false := by
  refine ⟨by decide, by decide, by decide⟩

/-- C3 (amended): the ERROR status defined by the lifecycle is unreachable —
    no run, whatever its environment, ever assigns it to any scene; on
    unrecoverable failure the run aborts with a terminal error event while
    the failing scene keeps its last in-progress status. -/
theorem spec_c3_amended :
    ∀ env fuel, ((finalStatuses (runDirector env fuel)).contains SceneStatus.ERROR) = false := by
  intro env fuel
  cases hp : env.parseResult with
  | error msg =>
    simp only [runDirector, hp]
    rfl
  | ok items =>
    cases hl : runLoopOf env fuel items with
    | none => simp only [runDirector, hp, hl]; rfl
    | some pr =>
      obtain ⟨st3, x⟩ := pr
      have hidle : ∀ s ∈ (afterParse items).scenes, s.status ≠ SceneStatus.ERROR := by
        intro s hs
        rw [scenesFromItemsAux_status items 0 s hs]
        decide
      have hst3 := @runLoop_status_pred (fun c => c ≠ SceneStatus.ERROR)
        (by decide) (by decide) (by decide) (by decide)
        (parseScriptWithGemini items) env.sceneEnvs env.jsonParse env.stop fuel 0 none
        (afterParse items) st3 x hidle hl
      cases x with
      | none =>
        simp only [runDirector, hp, hl, finalStatuses, addLog]
        exact contains_status_eq_false hst3
      | some msg =>
        simp only [runDirector, hp, hl, finalStatuses, addLog]
        exact contains_status_eq_false hst3

/-- C7 counterexample: the terminal error event of the no-locator run is the
    single DIRECTOR error log "Critical failure: No video URI returned from
    Veo" — it does not name the failing scene (neither the word Scene nor the
    identity 1 occurs in it), contradicting "a fatal error naming that scene". -/
theorem spec_c7_counterexample :
    lastLog (runDirector cfailEnv 2) =
      some { role := AgentRole.DIRECTOR,
             message := "Critical failure: No video URI returned from Veo",
             status := LogStatus.error } ∧
    strContains ("Critical failure: No video URI returned from Veo") ("Scene") = false ∧
    strContains ("Critical failure: No video URI returned from Veo") ("1") = false := by
  refine ⟨by decide, by decide, by decide⟩

/-- C7 (amended): a job reported done with an error payload or done without a
    video locator is a scene-level hard failure; the failure aborts the loop at
    that scene (no scene-level retry, no later scene is processed), and the run
    records it as a single terminal error event — which, per the
    counterexample, does not name the scene. -/
theorem spec_c7_amended :
    (∀ scene ph se img polls op0 fuel,
       op0.done = true → op0.error = none → opVideoUri op0 = none →
       (generateVeoVideo scene ph se img { op0 := op0, polls := polls } fuel).result =
         some (0, Except.error ("No video URI returned from Veo"))) ∧
    (∀ scene ph se img polls op0 fuel m,
       op0.done = true → op0.error = some m → m ≠ "" →
       (generateVeoVideo scene ph se img { op0 := op0, polls := polls } fuel).result =
         some (0, Except.error m)) ∧
    (∀ envs jp stop fuel sk rest k prev st step msg,
       stop k = false →
       processScene sk prev (envs k) jp fuel st = some step →
       step.outcome = Except.error msg →
       runLoop envs jp stop fuel (sk :: rest) k prev st = some (step.state, some msg)) ∧
    (∀ env fuel items st3 msg,
       env.parseResult = Except.ok items →
       runLoopOf env fuel items = some (st3, some msg) →
       runDirector env fuel =
         some (addLog st3 AgentRole.DIRECTOR ("Critical failure: " ++ msg) LogStatus.error) ∧
       errorLogCount (addLog st3 AgentRole.DIRECTOR ("Critical failure: " ++ msg)
         LogStatus.error).logs = 1) := by
  refine ⟨?_, ?_, ?_, ?_⟩
  · intro scene ph se img polls op0 fuel hd herr huri
    rw [generateVeoVideo_result]
    rw [pollLoop_done hd fuel 0]
    cases hv : op0.video with
    | none => simp [finishOp, herr, hv]
    | some v =>
      have hu : v.uri = none := by simpa [opVideoUri, hv] using huri
      simp [finishOp, herr, hv, hu]
  · intro scene ph se img polls op0 fuel m hd herr hm
    rw [generateVeoVideo_result]
    rw [pollLoop_done hd fuel 0]
    simp [finishOp, herr, hm]
  · intro envs jp stop fuel sk rest k prev st step msg h0 hstep ho
    exact runLoop_cons_fail h0 hstep ho
  · intro env fuel items st3 msg hp hl
    constructor
    · simp only [runDirector, hp, hl]
    · have h0 : errorLogCount st3.logs = 0 := by
        have h := runLoop_logcount (parseScriptWithGemini items) env.sceneEnvs env.jsonParse
          env.stop fuel 0 none (afterParse items) st3 (some msg) hl
        rw [h]
        rfl
      simp only [addLog]
      rw [errorLogCount_append, h0]
      rfl

/-- C7 witness: the no-locator and error-payload completions at concrete
    inputs, the concrete loop abort, and the concrete terminal error event of
    the failing one-scene run. -/
theorem spec_c7_witness :
    ((generateVeoVideo sceneA none false none { op0 := noUriOp, polls := constNotDone } 2).result =
       some (0, Except.error ("No video URI returned from Veo"))) ∧
    ((generateVeoVideo sceneA none false none { op0 := errOp, polls := constNotDone } 2).result =
       some (0, Except.error ("boom"))) ∧
    (runLoop envsC7 jpDemo stopNever 2 (sceneA :: []) 0 none stAB
       = some (stepC7.state, some ("No video URI returned from Veo"))) ∧
    (runDirector cfailEnv 2 =
       some (addLog loopC7.1 AgentRole.DIRECTOR
         ("Critical failure: " ++ "No video URI returned from Veo") LogStatus.error) ∧
     errorLogCount (addLog loopC7.1 AgentRole.DIRECTOR
       ("Critical failure: " ++ "No video URI returned from Veo") LogStatus.error).logs = 1) :=
  ⟨spec_c7_amended.1 sceneA none false none constNotDone noUriOp 2 rfl rfl rfl,
   spec_c7_amended.2.1 sceneA none false none constNotDone errOp 2 ("boom") rfl rfl (by decide),
   spec_c7_amended.2.2.1 envsC7 jpDemo stopNever 2 sceneA [] 0 none stAB stepC7
     ("No video URI returned from Veo") rfl (Option.some_get (by decide)).symm rfl,
   spec_c7_amended.2.2.2 cfailEnv 2 [itemA] loopC7.1 ("No video URI returned from Veo")
     rfl (by decide)⟩

/-- C10: whenever parsing succeeds and the production loop exits without a
    fatal error — including an exit forced by the stop signal at a scene
    boundary — the final wrap event is appended; in the concrete stopped run
    the wrap event is the last log while the sole scene never left IDLE, so
    the wrap event does not imply that every scene completed. -/
theorem spec_c10 :
    (∀ env fuel items st3,
       env.parseResult = Except.ok items →
       runLoopOf env fuel items = some (st3, none) →
       runDirector env fuel =
         some (addLog st3 AgentRole.DIRECTOR ("That\x27s a wrap! All scenes processed.")
           LogStatus.success)) ∧
    lastLog (runDirector stopEnv 2) =
      some { role := AgentRole.DIRECTOR,
             message := "That\x27s a wrap! All scenes processed.",
             status := LogStatus.success } ∧
    finalStatuses (runDirector stopEnv 2) = [SceneStatus.IDLE] := by
  refine ⟨?_, by decide, by decide⟩
  intro env fuel items st3 hp hl
  simp only [runDirector, hp, hl]

/-- C10 witness: the stopped run satisfies the wrap-emission rule at concrete
    inputs. -/
theorem spec_c10_witness :
    runDirector stopEnv 2 =
      some (addLog (afterParse [itemA]) AgentRole.DIRECTOR
        ("That\x27s a wrap! All scenes processed.") LogStatus.success) :=
  spec_c10.1 stopEnv 2 [itemA] (afterParse [itemA]) rfl (by decide)

end ScriptJangler
